import Mathlib

/-!
Verification of the Sleep_Detector repository's normalization layer.

Shallow embedding of:
- `groq_vision.py`: `detect_sleep` — image-URL normalization, code-fence
  stripping, JSON parsing of the model reply, field backfilling, status
  normalization, keyword-sniffing fallback, and the broad error handler.
- `app.py`: the `/detect` endpoint `detect` — body validation, payload size
  check, delegation to the detector.

Modelling conventions:
- Python values that can appear in a parsed JSON document are modelled by the
  `Json` inductive.  Python dicts are association lists in insertion order
  with unique keys (first-occurrence position, last-value on duplicates, as
  CPython builds them).
- Python's `json.loads` is modelled by `loads`, a strict recursive-descent
  parser for the JSON fragment actually exercised here: null, booleans,
  integer and decimal/exponent numerals, strings with the single-character
  escapes, arrays and objects.  `\uXXXX` escapes and the non-standard
  NaN/Infinity literals are outside the modelled fragment.
- `str.strip` is modelled over the ASCII whitespace characters, and
  `str.lower` over ASCII letters, which covers every string the claims and
  the program's own literals involve.
- Fallible Python operations (`in`, item get/set, `.lower()`, `len`,
  `.split`) are modelled as `Except PyErr` values carrying the exception
  message, so that the `try/except` structure of `detect_sleep` can be
  reproduced exactly.
- The external Groq model call is an oracle `model : String → Except PyErr
  String` mapping the dispatched image URL to either an exception raised
  during the call (or while extracting `response.choices[0].message.content`)
  or the reply text.
-/

/-- A JSON value / the Python value `json.loads` produces for it.
`num` holds Python ints; `float` holds the raw numeric token of a
fractional/exponent numeral (its numeric value is never consulted by the
program). -/
inductive Json where
  | null : Json
  | bool (b : Bool) : Json
  | num (n : Int) : Json
  | float (tok : String) : Json
  | str (s : String) : Json
  | arr (elems : List Json) : Json
  | obj (kvs : List (String × Json)) : Json

/-- A raised Python exception, by its `str(e)` message. -/
structure PyErr where
  msg : String
  deriving DecidableEq, Repr

/-- The whitespace characters of Python's `str.strip` (ASCII fragment),
which are also exactly the whitespace characters of the JSON grammar. -/
def isWsChar (c : Char) : Bool :=
  c = ' ' || c = '\t' || c = '\n' || c = '\r'

/-- Drop whitespace from both ends of a character list. -/
def trimList (l : List Char) : List Char :=
  ((l.dropWhile isWsChar).reverse.dropWhile isWsChar).reverse

/-- Python `s.strip()` (ASCII whitespace fragment). -/
def pyStrip (s : String) : String :=
  String.mk (trimList s.toList)

/-- Python `s.lower()` (ASCII fragment). -/
def pyLower (s : String) : String :=
  String.mk (s.toList.map Char.toLower)

/-- Python `s.startswith(p)`. -/
def pyStartsWith (s p : String) : Bool :=
  List.isPrefixOf p.toList s.toList

/-- `hasSubstr needle hay`: does `needle` occur as a contiguous run in
`hay`? -/
def hasSubstr : List Char → List Char → Bool
  | needle, [] => needle.isEmpty
  | needle, c :: t => List.isPrefixOf needle (c :: t) || hasSubstr needle t

/-- Python `sub in s` for strings (substring containment). -/
def strContainsSub (s sub : String) : Bool :=
  hasSubstr sub.toList s.toList

/-- Python `s.split(sep)` for a one-character separator, on character
lists: `splitOnChar '\n' "a\nb".toList = ["a".toList, "b".toList]`. -/
def splitOnChar (sep : Char) : List Char → List (List Char)
  | [] => [[]]
  | c :: t =>
    if c = sep then [] :: splitOnChar sep t
    else
      match splitOnChar sep t with
      | [] => [[c]]
      | h :: r => (c :: h) :: r

/-- First value bound to key `k` in a dict modelled as an assoc list. -/
def dictGet (k : String) : List (String × Json) → Option Json
  | [] => none
  | (k2, v) :: t => if k2 = k then some v else dictGet k t

/-- Python `k in d` for a dict. -/
def dictContains (k : String) (kvs : List (String × Json)) : Bool :=
  (dictGet k kvs).isSome

/-- Python `d[k] = v`: overwrite the value at `k` in place if present,
else append the new binding. -/
def dictSet (k : String) (v : Json) : List (String × Json) → List (String × Json)
  | [] => [(k, v)]
  | (k2, v2) :: t => if k2 = k then (k2, v) :: t else (k2, v2) :: dictSet k v t

/-- Duplicate-key resolution while `json.loads` builds an object: CPython
assigns members left to right into a dict, so a repeated key keeps its first
position and its last value.  `kvs` is the (already resolved) remainder of
the member list. -/
def objInsert (k : String) (v : Json) (kvs : List (String × Json)) :
    List (String × Json) :=
  match dictGet k kvs with
  | some v2 => (k, v2) :: kvs.filter (fun p => !(p.1 == k))
  | none => (k, v) :: kvs

/-- Skip JSON whitespace. -/
def skipWs : List Char → List Char
  | [] => []
  | c :: t => if isWsChar c then skipWs t else c :: t

/-- JSON single-character string escapes (`\uXXXX` is outside the modelled
fragment). -/
def escChar (c : Char) : Option Char :=
  if c = '\"' then some '\"'
  else if c = '\\' then some '\\'
  else if c = '/' then some '/'
  else if c = 'b' then some (Char.ofNat 8)
  else if c = 'f' then some (Char.ofNat 12)
  else if c = 'n' then some '\n'
  else if c = 'r' then some '\r'
  else if c = 't' then some '\t'
  else none

/-- Parse a JSON string body after the opening quote; returns the decoded
characters and the input after the closing quote.  Raw control characters
are refused, as by `json.loads` in strict mode. -/
def parseStringBody : List Char → Option (List Char × List Char)
  | [] => none
  | '\"' :: t => some ([], t)
  | '\\' :: e :: t =>
    match escChar e with
    | some ec =>
      match parseStringBody t with
      | some (s, r) => some (ec :: s, r)
      | none => none
    | none => none
  | ['\\'] => none
  | c :: t =>
    if c.toNat < 32 then none
    else
      match parseStringBody t with
      | some (s, r) => some (c :: s, r)
      | none => none

/-- Decimal digits to a number. -/
def digitsToNat (ds : List Char) : Nat :=
  ds.foldl (fun a c => a * 10 + (c.toNat - 48)) 0

/-- Parse the part of a JSON numeral after an optional sign, per the JSON
grammar (`0` or a nonzero-led digit run, optional fraction, optional
exponent).  Returns the token characters, whether the numeral is an
integer, and the rest of the input. -/
def parseNumCore (l : List Char) : Option (List Char × Bool × List Char) :=
  match l with
  | [] => none
  | c :: _ =>
    if !c.isDigit then none
    else
      let intPart := if c = '0' then ['0'] else l.takeWhile Char.isDigit
      let l2 := l.drop intPart.length
      let fracState :=
        match l2 with
        | '.' :: t =>
          let ds := t.takeWhile Char.isDigit
          if ds.isEmpty then (([] : List Char), l2) else ('.' :: ds, t.drop ds.length)
        | _ => ([], l2)
      let fracPart := fracState.1
      let l3 := fracState.2
      let expState :=
        match l3 with
        | e :: t =>
          if e = 'e' || e = 'E' then
            match t with
            | s :: t2 =>
              if s = '+' || s = '-' then
                let ds := t2.takeWhile Char.isDigit
                if ds.isEmpty then (([] : List Char), l3)
                else (e :: s :: ds, t2.drop ds.length)
              else
                let ds := t.takeWhile Char.isDigit
                if ds.isEmpty then (([] : List Char), l3) else (e :: ds, t.drop ds.length)
            | [] => ([], l3)
          else ([], l3)
        | [] => ([], l3)
      let expPart := expState.1
      let l4 := expState.2
      some (intPart ++ fracPart ++ expPart, fracPart.isEmpty && expPart.isEmpty, l4)

/-- Parse a JSON numeral: an integer numeral becomes `Json.num`, a
fraction/exponent numeral becomes `Json.float` holding its token. -/
def parseNum (l : List Char) : Option (Json × List Char) :=
  match l with
  | '-' :: t =>
    match parseNumCore t with
    | some (tok, isInt, r) =>
      if isInt then some (Json.num (-(Int.ofNat (digitsToNat tok))), r)
      else some (Json.float (String.mk ('-' :: tok)), r)
    | none => none
  | _ =>
    match parseNumCore l with
    | some (tok, isInt, r) =>
      if isInt then some (Json.num (Int.ofNat (digitsToNat tok)), r)
      else some (Json.float (String.mk tok), r)
    | none => none

mutual

/-- Recursive-descent JSON value parser (fuel-indexed). -/
def parseVal : Nat → List Char → Option (Json × List Char)
  | 0, _ => none
  | Nat.succ fuel, l0 =>
    match skipWs l0 with
    | [] => none
    | '\"' :: t =>
      match parseStringBody t with
      | some (s, r) => some (Json.str (String.mk s), r)
      | none => none
    | '{' :: t =>
      match skipWs t with
      | '}' :: r => some (Json.obj [], r)
      | t2 =>
        match parseMembers fuel t2 with
        | some (kvs, r) => some (Json.obj kvs, r)
        | none => none
    | '[' :: t =>
      match skipWs t with
      | ']' :: r => some (Json.arr [], r)
      | t2 =>
        match parseElems fuel t2 with
        | some (vs, r) => some (Json.arr vs, r)
        | none => none
    | 't' :: 'r' :: 'u' :: 'e' :: r => some (Json.bool true, r)
    | 'f' :: 'a' :: 'l' :: 's' :: 'e' :: r => some (Json.bool false, r)
    | 'n' :: 'u' :: 'l' :: 'l' :: r => some (Json.null, r)
    | l1 => parseNum l1

/-- Parse the elements of a non-empty JSON array up to `]`. -/
def parseElems : Nat → List Char → Option (List Json × List Char)
  | 0, _ => none
  | Nat.succ fuel, l =>
    match parseVal fuel l with
    | some (v, r) =>
      match skipWs r with
      | ',' :: r2 =>
        match parseElems fuel r2 with
        | some (vs, r3) => some (v :: vs, r3)
        | none => none
      | ']' :: r2 => some ([v], r2)
      | _ => none
    | none => none

/-- Parse the members of a non-empty JSON object up to `}` (leading
whitespace already skipped). -/
def parseMembers : Nat → List Char → Option (List (String × Json) × List Char)
  | 0, _ => none
  | Nat.succ fuel, l =>
    match l with
    | '\"' :: t =>
      match parseStringBody t with
      | some (k, r) =>
        match skipWs r with
        | ':' :: r2 =>
          match parseVal fuel r2 with
          | some (v, r3) =>
            match skipWs r3 with
            | ',' :: r4 =>
              match parseMembers fuel (skipWs r4) with
              | some (kvs, r5) => some (objInsert (String.mk k) v kvs, r5)
              | none => none
            | '}' :: r4 => some ([(String.mk k, v)], r4)
            | _ => none
          | none => none
        | _ => none
      | none => none
    | _ => none

end

/-- Model of Python's `json.loads`: parse one value, then require only
whitespace to remain; `none` models a raised `json.JSONDecodeError`. -/
def loads (s : String) : Option Json :=
  match parseVal (s.toList.length + 1) s.toList with
  | some (j, r) => if (skipWs r).isEmpty then some j else none
  | none => none

/-- The Python type name of a `Json` value, as used in exception
messages. -/
def pyTypeName : Json → String
  | .null => "NoneType"
  | .bool _ => "bool"
  | .num _ => "int"
  | .float _ => "float"
  | .str _ => "str"
  | .arr _ => "list"
  | .obj _ => "dict"

/-- Python `k in container` for a string `k`: key test on dicts, element
equality on lists, substring test on strings; `TypeError` otherwise. -/
def pyIn (k : String) : Json → Except PyErr Bool
  | .obj kvs => .ok (dictContains k kvs)
  | .arr xs =>
    .ok (xs.any fun x =>
      match x with
      | .str s => s == k
      | _ => false)
  | .str s => .ok (strContainsSub s k)
  | j => .error ⟨"argument of type '" ++ pyTypeName j ++ "' is not iterable"⟩

/-- Python `container[k] = v` for a string key `k`: in-place dict update;
`TypeError` on every other type. -/
def setItemStr (j : Json) (k : String) (v : Json) : Except PyErr Json :=
  match j with
  | .obj kvs => .ok (.obj (dictSet k v kvs))
  | .arr _ => .error ⟨"list indices must be integers or slices, not str"⟩
  | .str _ => .error ⟨"'str' object does not support item assignment"⟩
  | j2 => .error ⟨"'" ++ pyTypeName j2 ++ "' object does not support item assignment"⟩

/-- Python `container[k]` for a string key `k`: dict lookup (`KeyError` if
absent); `TypeError` on every other type. -/
def getItemStr (j : Json) (k : String) : Except PyErr Json :=
  match j with
  | .obj kvs =>
    match dictGet k kvs with
    | some v => .ok v
    | none => .error ⟨"'" ++ k ++ "'"⟩
  | .arr _ => .error ⟨"list indices must be integers or slices, not str"⟩
  | .str _ => .error ⟨"string indices must be integers"⟩
  | j2 => .error ⟨"'" ++ pyTypeName j2 ++ "' object is not subscriptable"⟩

/-- Python `v.lower().strip()`: succeeds exactly on strings
(`AttributeError` otherwise). -/
def pyLowerStripVal : Json → Except PyErr String
  | .str s => .ok (pyStrip (pyLower s))
  | j => .error ⟨"'" ++ pyTypeName j ++ "' object has no attribute 'lower'"⟩

/-- Python truthiness of a JSON-shaped value. -/
def pyTruthy : Json → Bool
  | .null => false
  | .bool b => b
  | .num n => !(n == 0)
  | .float tok =>
    (tok.toList.takeWhile fun c => !(c == 'e' || c == 'E')).any
      (fun c => c.isDigit && !(c == '0'))
  | .str s => !s.toList.isEmpty
  | .arr xs => !xs.isEmpty
  | .obj kvs => !kvs.isEmpty

/-- Python `len(v)`: `TypeError` on unsized values. -/
def pyLenVal : Json → Except PyErr Nat
  | .str s => .ok s.toList.length
  | .arr xs => .ok xs.length
  | .obj kvs => .ok kvs.length
  | j => .error ⟨"object of type '" ++ pyTypeName j ++ "' has no len()"⟩

/-- Python `v.split(",")[-1]` — the text after the last comma —
succeeding exactly on strings (`AttributeError` otherwise). -/
def pySplitLastComma : Json → Except PyErr Json
  | .str s => .ok (Json.str (String.mk ((splitOnChar ',' s.toList).getLastD [])))
  | j => .error ⟨"'" ++ pyTypeName j ++ "' object has no attribute 'split'"⟩

/-! ## `groq_vision.py`: `detect_sleep` (lines 49–124) -/

/-- Lines 51–54: prepend the data-URI scheme when the image string does not
already start with `"data:"`. -/
def normalizeImageUrl (base64_image : String) : String :=
  if !(pyStartsWith base64_image "data:") then
    "data:image/jpeg;base64," ++ base64_image
  else base64_image

/-- Lines 83–86: when the (stripped) reply starts with a code fence,
discard every line that starts with a fence, rejoin the rest and strip. -/
def stripFences (result_text : String) : String :=
  if pyStartsWith result_text "```" then
    pyStrip (String.mk (List.intercalate ['\n']
      ((splitOnChar '\n' result_text.toList).filter
        fun l => !(List.isPrefixOf "```".toList l))))
  else result_text

/-- Lines 108–112: the fixed fallback when parsing failed but the sniffed
text mentions sleep. -/
def sleepingFallback : Json :=
  Json.obj [("status", Json.str "sleeping"), ("confidence", Json.str "medium"),
    ("details", Json.str "Person appears to be sleeping based on image analysis")]

/-- Lines 113–117: the fixed fallback when parsing failed and the sniffed
text does not mention sleep. -/
def awakeFallback : Json :=
  Json.obj [("status", Json.str "awake"), ("confidence", Json.str "low"),
    ("details", Json.str "Could not parse model response clearly")]

/-- Lines 120–124: the result built by the broad `except Exception`
handler. -/
def errorResult (msg : String) : Json :=
  Json.obj [("status", Json.str "error"), ("confidence", Json.str "none"),
    ("details", Json.str ("Error during analysis: " ++ msg))]

/-- One `if k not in result: result[k] = dflt` step (lines 91–96), with
the Python exceptions either operation can raise. -/
def backfillField (k : String) (dflt : Json) (result : Json) : Except PyErr Json :=
  match pyIn k result with
  | .error e => .error e
  | .ok isIn => if isIn then .ok result else setItemStr result k dflt

/-- Lines 98–101: `result["status"] = result["status"].lower().strip()`,
then force the value to `"awake"` when it is not exactly `"sleeping"` or
`"awake"`, with the Python exceptions each operation can raise. -/
def normStatusStep (r3 : Json) : Except PyErr Json :=
  match getItemStr r3 "status" with
  | .error e => .error e
  | .ok sv =>
    match pyLowerStripVal sv with
    | .error e => .error e
    | .ok s =>
      match setItemStr r3 "status" (Json.str s) with
      | .error e => .error e
      | .ok r4 =>
        if s = "sleeping" ∨ s = "awake" then .ok r4
        else setItemStr r4 "status" (Json.str "awake")

/-- Lines 91–103: backfill the three fields, then normalize `status`; any
`TypeError`/`AttributeError` a non-dict value provokes is propagated. -/
def handleParsed (result : Json) : Except PyErr Json :=
  match backfillField "status" (Json.str "awake") result with
  | .error e => .error e
  | .ok r1 =>
    match backfillField "confidence" (Json.str "low") r1 with
    | .error e => .error e
    | .ok r2 =>
      match backfillField "details" (Json.str "Analysis completed") r2 with
      | .error e => .error e
      | .ok r3 => normStatusStep r3

/-- Lines 79–124 after the model call returned `content`: strip, remove
code fences, `json.loads`; on success run the field/status normalization
(its exceptions reaching the broad handler), on `JSONDecodeError` sniff the
fence-stripped text for `"sleep"`. -/
def processReply (content : String) : Json :=
  let result_text := stripFences (pyStrip content)
  match loads result_text with
  | none =>
    if strContainsSub (pyLower result_text) "sleep" then sleepingFallback
    else awakeFallback
  | some result =>
    match handleParsed result with
    | .ok r => r
    | .error e => errorResult e.msg

/-- The whole `try/except` of `detect_sleep` given the outcome of the
model call: an exception from the call is absorbed by the broad handler,
a reply is processed by `processReply`. -/
def detectFromOutcome (outcome : Except PyErr String) : Json :=
  match outcome with
  | .error e => errorResult e.msg
  | .ok content => processReply content

/-- `detect_sleep` (lines 39–124), parameterized by the model-call oracle:
the URL dispatched to the model is the normalized image string. -/
def detect_sleep (model : String → Except PyErr String)
    (base64_image : String) : Json :=
  detectFromOutcome (model (normalizeImageUrl base64_image))

/-- `detect_sleep` applied to an arbitrary JSON-shaped `image` value, as
the endpoint does: on a non-string the very first attribute access
(`base64_image.startswith`) raises inside the `try`, so the broad handler
returns an error result. -/
def detect_sleep_json (model : String → Except PyErr String) (img : Json) : Json :=
  match img with
  | .str s => detect_sleep model s
  | j => errorResult ("'" ++ pyTypeName j ++ "' object has no attribute 'startswith'")

/-! ## `app.py`: the `/detect` endpoint (lines 26–57) -/

/-- Lines 37–41: the fixed 400 body for a missing/falsy body or missing
`image` key. -/
def noImageBody : Json :=
  Json.obj [("status", Json.str "error"), ("confidence", Json.str "none"),
    ("details", Json.str "No image data provided. Send JSON with 'image' key containing base64 data.")]

/-- Lines 50–54: the fixed 400 body for a too-small payload. -/
def tooSmallBody : Json :=
  Json.obj [("status", Json.str "error"), ("confidence", Json.str "none"),
    ("details", Json.str "Image data appears too small or invalid.")]

/-- The `/detect` handler (lines 34–57) given the parsed request body
`data` and the detector `detector` standing for `detect_sleep`; the result
is the HTTP body and status code, or an uncaught Python exception.  The
short-circuit `not data or "image" not in data`, the data-URI stripping
for the size check, and the pass-through of the original string are
reproduced from the source. -/
def detect (detector : Json → Json) (data : Json) : Except PyErr (Json × Nat) :=
  if !(pyTruthy data) then .ok (noImageBody, 400)
  else
    match pyIn "image" data with
    | .error e => .error e
    | .ok isIn =>
      if !isIn then .ok (noImageBody, 400)
      else
        match getItemStr data "image" with
        | .error e => .error e
        | .ok base64_image =>
          match pyIn "," base64_image with
          | .error e => .error e
          | .ok hasComma =>
            match (if hasComma then pySplitLastComma base64_image
                   else .ok base64_image) with
            | .error e => .error e
            | .ok raw_b64 =>
              match pyLenVal raw_b64 with
              | .error e => .error e
              | .ok n =>
                if n < 100 then .ok (tooSmallBody, 400)
                else .ok (detector base64_image, 200)

/-- The composed system: the endpoint delegating to `detect_sleep` over
the model oracle. -/
def fullDetect (model : String → Except PyErr String) (data : Json) :
    Except PyErr (Json × Nat) :=
  detect (detect_sleep_json model) data

/-- The payload the endpoint's size check measures: the text after the
last comma when the string has one (stripping a `data:...,` prefix). -/
def strippedPayload (s : String) : String :=
  if strContainsSub s "," then String.mk ((splitOnChar ',' s.toList).getLastD [])
  else s

/-! ## Spec-side definitions (for refinement-style statements) -/

/-- Modelled from the spec (§4.2 step 5): the normalized status a present
string status value `s` is turned into — lowercase, trim, and force to
`"awake"` unless the outcome is exactly `"sleeping"` or `"awake"`. -/
def specFinalStatus (s : String) : String :=
  let s1 := pyStrip (pyLower s)
  if s1 = "sleeping" ∨ s1 = "awake" then s1 else "awake"

example : loads " null " = some Json.null := rfl
example : loads "[1, 2]" = some (Json.arr [Json.num 1, Json.num 2]) := rfl
example : loads "-12" = some (Json.num (-12)) := rfl
example : loads "1.5e3" = some (Json.float "1.5e3") := rfl
example : loads "01" = none := rfl
example : loads "not json" = none := rfl
example : loads "\x7b\"a\": \"b\"\x7d" = some (Json.obj [("a", Json.str "b")]) := rfl
example : loads "\x7b\"a\": 1, \"a\": 2\x7d" = some (Json.obj [("a", Json.num 2)]) := rfl
example : loads "\x7b\x7d" = some (Json.obj []) := rfl
example : loads "\"a\\nb\"" = some (Json.str "a\nb") := rfl
example : pyStrip "  ab c\n" = "ab c" := rfl
example : pyLower "AbC" = "abc" := rfl
example : strContainsSub "no SLEEPING here" "sleep" = false := rfl
example : strContainsSub (pyLower "no SLEEPING here") "sleep" = true := rfl
/-! ## Dictionary lemmas -/

theorem toList_mk (l : List Char) : (String.mk l).toList = l := rfl

theorem dictGet_dictSet_self (k : String) (v : Json) (kvs : List (String × Json)) :
    dictGet k (dictSet k v kvs) = some v := by
  induction kvs with
  | nil => simp [dictGet, dictSet]
  | cons p t ih =>
    obtain ⟨k2, v2⟩ := p
    by_cases h : k2 = k
    · simp [dictSet, dictGet, h]
    · simp [dictSet, dictGet, h, ih]

theorem dictGet_dictSet_ne (k k2 : String) (h : k ≠ k2) (v : Json)
    (kvs : List (String × Json)) : dictGet k (dictSet k2 v kvs) = dictGet k kvs := by
  have h2 : ¬ (k2 = k) := fun hh => h hh.symm
  induction kvs with
  | nil => simp [dictGet, dictSet, h2]
  | cons p t ih =>
    obtain ⟨k3, v3⟩ := p
    by_cases h3 : k3 = k2
    · subst h3
      simp [dictSet, dictGet, h2]
    · by_cases h4 : k3 = k
      · subst h4
        simp [dictSet, dictGet, h3]
      · simp [dictSet, dictGet, h3, h4, ih]

theorem dictContains_dictSet_self (k : String) (v : Json)
    (kvs : List (String × Json)) : dictContains k (dictSet k v kvs) = true := by
  simp [dictContains, dictGet_dictSet_self]

theorem dictContains_dictSet_ne (k k2 : String) (h : k ≠ k2) (v : Json)
    (kvs : List (String × Json)) :
    dictContains k (dictSet k2 v kvs) = dictContains k kvs := by
  simp [dictContains, dictGet_dictSet_ne k k2 h]

/-! ## Structural lemmas about `handleParsed` -/

theorem backfillField_obj (k : String) (dflt : Json) (kvs : List (String × Json)) :
    backfillField k dflt (Json.obj kvs) =
      .ok (Json.obj (if dictContains k kvs then kvs else dictSet k dflt kvs)) := by
  cases h : dictContains k kvs <;> simp [backfillField, pyIn, h, setItemStr]

theorem backfill_step (k : String) (dflt : Json) (kvs1 : List (String × Json)) :
    ∃ k2, backfillField k dflt (Json.obj kvs1) = .ok (Json.obj k2) ∧
      dictGet k k2 = (if dictContains k kvs1 then dictGet k kvs1 else some dflt) ∧
      dictContains k k2 = true ∧
      (∀ k3, k3 ≠ k → dictGet k3 k2 = dictGet k3 kvs1) ∧
      (∀ k3, k3 ≠ k → dictContains k3 k2 = dictContains k3 kvs1) := by
  rw [backfillField_obj]
  by_cases h : dictContains k kvs1
  · exact ⟨kvs1, by simp [h], by simp [h], h, fun _ _ => rfl, fun _ _ => rfl⟩
  · refine ⟨dictSet k dflt kvs1, by simp [h], ?_, dictContains_dictSet_self k dflt kvs1,
      fun k3 hk3 => dictGet_dictSet_ne k3 k hk3 dflt kvs1,
      fun k3 hk3 => dictContains_dictSet_ne k3 k hk3 dflt kvs1⟩
    simp [h, dictGet_dictSet_self]

theorem specFinalStatus_cases (s : String) :
    specFinalStatus s = "sleeping" ∨ specFinalStatus s = "awake" := by
  unfold specFinalStatus
  by_cases h : pyStrip (pyLower s) = "sleeping" ∨ pyStrip (pyLower s) = "awake"
  · simp [h]
  · simp [h]

theorem normStatusStep_obj (kvs : List (String × Json)) (s0 : String)
    (hs : dictGet "status" kvs = some (Json.str s0)) :
    ∃ kvs4, normStatusStep (Json.obj kvs) = .ok (Json.obj kvs4) ∧
      dictGet "status" kvs4 = some (Json.str (specFinalStatus s0)) ∧
      (∀ k, k ≠ "status" → dictGet k kvs4 = dictGet k kvs) ∧
      (∀ k, k ≠ "status" → dictContains k kvs4 = dictContains k kvs) ∧
      dictContains "status" kvs4 = true := by
  simp only [normStatusStep, getItemStr, hs, pyLowerStripVal, setItemStr]
  by_cases hcond : pyStrip (pyLower s0) = "sleeping" ∨ pyStrip (pyLower s0) = "awake"
  · refine ⟨dictSet "status" (Json.str (pyStrip (pyLower s0))) kvs, by simp [hcond], ?_,
      fun k hk => dictGet_dictSet_ne k "status" hk _ kvs,
      fun k hk => dictContains_dictSet_ne k "status" hk _ kvs,
      dictContains_dictSet_self _ _ kvs⟩
    rw [dictGet_dictSet_self]
    unfold specFinalStatus
    simp [hcond]
  · refine ⟨dictSet "status" (Json.str "awake")
        (dictSet "status" (Json.str (pyStrip (pyLower s0))) kvs), by simp [hcond, setItemStr], ?_,
      ?_, ?_, dictContains_dictSet_self _ _ _⟩
    · rw [dictGet_dictSet_self]
      unfold specFinalStatus
      simp [hcond]
    · intro k hk
      rw [dictGet_dictSet_ne k "status" hk _ _, dictGet_dictSet_ne k "status" hk _ kvs]
    · intro k hk
      rw [dictContains_dictSet_ne k "status" hk _ _,
        dictContains_dictSet_ne k "status" hk _ kvs]

theorem handleParsed_obj_main (kvs : List (String × Json)) (s0 : String)
    (hs : dictGet "status" kvs = some (Json.str s0) ∨
      (dictGet "status" kvs = none ∧ s0 = "awake")) :
    ∃ kvs2, handleParsed (Json.obj kvs) = .ok (Json.obj kvs2) ∧
      dictGet "status" kvs2 = some (Json.str (specFinalStatus s0)) ∧
      dictGet "confidence" kvs2 =
        (if dictContains "confidence" kvs then dictGet "confidence" kvs
         else some (Json.str "low")) ∧
      dictGet "details" kvs2 =
        (if dictContains "details" kvs then dictGet "details" kvs
         else some (Json.str "Analysis completed")) ∧
      dictContains "status" kvs2 = true ∧
      dictContains "confidence" kvs2 = true ∧
      dictContains "details" kvs2 = true := by
  obtain ⟨k1, e1, g1, c1, n1, m1⟩ := backfill_step "status" (Json.str "awake") kvs
  obtain ⟨k2, e2, g2, c2, n2, m2⟩ := backfill_step "confidence" (Json.str "low") k1
  obtain ⟨k3, e3, g3, c3, n3, m3⟩ := backfill_step "details" (Json.str "Analysis completed") k2
  have hst1 : dictGet "status" k1 = some (Json.str s0) := by
    rcases hs with h | ⟨h, rfl⟩ <;> rw [g1] <;> simp [dictContains, h]
  have hst3 : dictGet "status" k3 = some (Json.str s0) := by
    rw [n3 "status" (by decide), n2 "status" (by decide)]
    exact hst1
  obtain ⟨k4, e4, g4, n4, m4, c4⟩ := normStatusStep_obj k3 s0 hst3
  refine ⟨k4, ?_, g4, ?_, ?_, c4, ?_, ?_⟩
  · simp only [handleParsed, e1, e2, e3, e4]
  · rw [n4 "confidence" (by decide), n3 "confidence" (by decide), g2,
      m1 "confidence" (by decide), n1 "confidence" (by decide)]
  · rw [n4 "details" (by decide), g3, m2 "details" (by decide),
      m1 "details" (by decide), n2 "details" (by decide), n1 "details" (by decide)]
  · rw [m4 "confidence" (by decide), m3 "confidence" (by decide)]
    exact c2
  · rw [m4 "details" (by decide)]
    exact c3

theorem handleParsed_null :
    handleParsed Json.null = .error ⟨"argument of type 'NoneType' is not iterable"⟩ := rfl

theorem handleParsed_bool (b : Bool) :
    handleParsed (Json.bool b) = .error ⟨"argument of type 'bool' is not iterable"⟩ := rfl

theorem handleParsed_num (n : Int) :
    handleParsed (Json.num n) = .error ⟨"argument of type 'int' is not iterable"⟩ := rfl

theorem handleParsed_float (tok : String) :
    handleParsed (Json.float tok) =
      .error ⟨"argument of type 'float' is not iterable"⟩ := rfl

theorem handleParsed_str_error (s : String) :
    ∃ e, handleParsed (Json.str s) = .error e := by
  cases h1 : strContainsSub s "status" with
  | false =>
    refine ⟨⟨"'str' object does not support item assignment"⟩, ?_⟩
    simp [handleParsed, backfillField, pyIn, h1, setItemStr]
  | true =>
    cases h2 : strContainsSub s "confidence" with
    | false =>
      refine ⟨⟨"'str' object does not support item assignment"⟩, ?_⟩
      simp [handleParsed, backfillField, pyIn, h1, h2, setItemStr]
    | true =>
      cases h3 : strContainsSub s "details" with
      | false =>
        refine ⟨⟨"'str' object does not support item assignment"⟩, ?_⟩
        simp [handleParsed, backfillField, pyIn, h1, h2, h3, setItemStr]
      | true =>
        refine ⟨⟨"string indices must be integers"⟩, ?_⟩
        simp [handleParsed, backfillField, pyIn, h1, h2, h3, normStatusStep, getItemStr]

theorem handleParsed_arr_error (xs : List Json) :
    ∃ e, handleParsed (Json.arr xs) = .error e := by
  cases h1 : xs.any (fun x =>
      match x with
      | Json.str s => s == "status"
      | _ => false) with
  | false =>
    refine ⟨⟨"list indices must be integers or slices, not str"⟩, ?_⟩
    simp [handleParsed, backfillField, pyIn, h1, setItemStr]
  | true =>
    cases h2 : xs.any (fun x =>
        match x with
        | Json.str s => s == "confidence"
        | _ => false) with
    | false =>
      refine ⟨⟨"list indices must be integers or slices, not str"⟩, ?_⟩
      simp [handleParsed, backfillField, pyIn, h1, h2, setItemStr]
    | true =>
      cases h3 : xs.any (fun x =>
          match x with
          | Json.str s => s == "details"
          | _ => false) with
      | false =>
        refine ⟨⟨"list indices must be integers or slices, not str"⟩, ?_⟩
        simp [handleParsed, backfillField, pyIn, h1, h2, h3, setItemStr]
      | true =>
        refine ⟨⟨"list indices must be integers or slices, not str"⟩, ?_⟩
        simp [handleParsed, backfillField, pyIn, h1, h2, h3, normStatusStep, getItemStr]

theorem handleParsed_nonobj_error (j : Json) (h : ∀ kvs, j ≠ Json.obj kvs) :
    ∃ e, handleParsed j = .error e := by
  cases j with
  | null => exact ⟨_, handleParsed_null⟩
  | bool b => exact ⟨_, handleParsed_bool b⟩
  | num n => exact ⟨_, handleParsed_num n⟩
  | float tok => exact ⟨_, handleParsed_float tok⟩
  | str s => exact handleParsed_str_error s
  | arr xs => exact handleParsed_arr_error xs
  | obj kvs => exact absurd rfl (h kvs)

theorem handleParsed_bad_status (kvs : List (String × Json)) (v : Json)
    (hget : dictGet "status" kvs = some v) (hv : ∀ s, v ≠ Json.str s) :
    ∃ e, handleParsed (Json.obj kvs) = .error e := by
  obtain ⟨k1, e1, g1, c1, n1, m1⟩ := backfill_step "status" (Json.str "awake") kvs
  obtain ⟨k2, e2, g2, c2, n2, m2⟩ := backfill_step "confidence" (Json.str "low") k1
  obtain ⟨k3, e3, g3, c3, n3, m3⟩ := backfill_step "details" (Json.str "Analysis completed") k2
  have hcon : dictContains "status" kvs = true := by simp [dictContains, hget]
  have hst1 : dictGet "status" k1 = some v := by rw [g1]; simp [hcon, hget]
  have hst3 : dictGet "status" k3 = some v := by
    rw [n3 "status" (by decide), n2 "status" (by decide)]
    exact hst1
  have hlow : ∃ e0, pyLowerStripVal v = .error e0 := by
    cases v with
    | str s => exact absurd rfl (hv s)
    | null => exact ⟨_, rfl⟩
    | bool b => exact ⟨_, rfl⟩
    | num n => exact ⟨_, rfl⟩
    | float tok => exact ⟨_, rfl⟩
    | arr ys => exact ⟨_, rfl⟩
    | obj kvs2 => exact ⟨_, rfl⟩
  obtain ⟨e0, he0⟩ := hlow
  have hns : normStatusStep (Json.obj k3) = .error e0 := by
    simp only [normStatusStep, getItemStr, hst3, he0]
  obtain ⟨e, he⟩ : ∃ e, normStatusStep (Json.obj k3) = .error e := ⟨e0, hns⟩
  exact ⟨e, by simp only [handleParsed, e1, e2, e3, he]⟩

theorem handleParsed_ok_shape (j r : Json) (h : handleParsed j = .ok r) :
    ∃ kvs2, r = Json.obj kvs2 ∧
      dictContains "status" kvs2 = true ∧ dictContains "confidence" kvs2 = true ∧
      dictContains "details" kvs2 = true ∧
      (dictGet "status" kvs2 = some (Json.str "sleeping") ∨
       dictGet "status" kvs2 = some (Json.str "awake")) := by
  cases hobj : j with
  | obj kvs =>
    rcases hv : dictGet "status" kvs with _ | v
    · obtain ⟨kvs2, heq, hst, hcf, hdt, hc1, hc2, hc3⟩ :=
        handleParsed_obj_main kvs "awake" (Or.inr ⟨hv, rfl⟩)
      rw [hobj, heq] at h
      refine ⟨kvs2, by injection h with h2; exact h2.symm, hc1, hc2, hc3, ?_⟩
      rw [hst]
      right
      rfl
    · cases v with
      | str s =>
        obtain ⟨kvs2, heq, hst, hcf, hdt, hc1, hc2, hc3⟩ :=
          handleParsed_obj_main kvs s (Or.inl hv)
        rw [hobj, heq] at h
        refine ⟨kvs2, by injection h with h2; exact h2.symm, hc1, hc2, hc3, ?_⟩
        rw [hst]
        rcases specFinalStatus_cases s with hc | hc <;> rw [hc]
        · left; rfl
        · right; rfl
      | null =>
        obtain ⟨e, he⟩ := handleParsed_bad_status kvs _ hv (fun s hh => Json.noConfusion hh)
        rw [hobj, he] at h
        exact Except.noConfusion h
      | bool b =>
        obtain ⟨e, he⟩ := handleParsed_bad_status kvs _ hv (fun s hh => Json.noConfusion hh)
        rw [hobj, he] at h
        exact Except.noConfusion h
      | num n =>
        obtain ⟨e, he⟩ := handleParsed_bad_status kvs _ hv (fun s hh => Json.noConfusion hh)
        rw [hobj, he] at h
        exact Except.noConfusion h
      | float tok =>
        obtain ⟨e, he⟩ := handleParsed_bad_status kvs _ hv (fun s hh => Json.noConfusion hh)
        rw [hobj, he] at h
        exact Except.noConfusion h
      | arr ys =>
        obtain ⟨e, he⟩ := handleParsed_bad_status kvs _ hv (fun s hh => Json.noConfusion hh)
        rw [hobj, he] at h
        exact Except.noConfusion h
      | obj kvs3 =>
        obtain ⟨e, he⟩ := handleParsed_bad_status kvs _ hv (fun s hh => Json.noConfusion hh)
        rw [hobj, he] at h
        exact Except.noConfusion h
  | null =>
    obtain ⟨e, he⟩ := handleParsed_nonobj_error Json.null (fun kvs hh => Json.noConfusion hh)
    rw [hobj, he] at h
    exact Except.noConfusion h
  | bool b =>
    obtain ⟨e, he⟩ :=
      handleParsed_nonobj_error (Json.bool b) (fun kvs hh => Json.noConfusion hh)
    rw [hobj, he] at h
    exact Except.noConfusion h
  | num n =>
    obtain ⟨e, he⟩ := handleParsed_nonobj_error (Json.num n) (fun kvs hh => Json.noConfusion hh)
    rw [hobj, he] at h
    exact Except.noConfusion h
  | float tok =>
    obtain ⟨e, he⟩ :=
      handleParsed_nonobj_error (Json.float tok) (fun kvs hh => Json.noConfusion hh)
    rw [hobj, he] at h
    exact Except.noConfusion h
  | str s =>
    obtain ⟨e, he⟩ := handleParsed_nonobj_error (Json.str s) (fun kvs hh => Json.noConfusion hh)
    rw [hobj, he] at h
    exact Except.noConfusion h
  | arr ys =>
    obtain ⟨e, he⟩ := handleParsed_nonobj_error (Json.arr ys) (fun kvs hh => Json.noConfusion hh)
    rw [hobj, he] at h
    exact Except.noConfusion h

/-! ## Unfolding helpers for `processReply` and result shapes -/

theorem processReply_parse_fail (content : String)
    (h : loads (stripFences (pyStrip content)) = none) :
    processReply content =
      (if strContainsSub (pyLower (stripFences (pyStrip content))) "sleep"
       then sleepingFallback else awakeFallback) := by
  simp only [processReply, h]

theorem processReply_parsed_ok (content : String) (j r : Json)
    (h1 : loads (stripFences (pyStrip content)) = some j)
    (h2 : handleParsed j = .ok r) : processReply content = r := by
  simp only [processReply, h1, h2]

theorem processReply_parsed_err (content : String) (j : Json) (e : PyErr)
    (h1 : loads (stripFences (pyStrip content)) = some j)
    (h2 : handleParsed j = .error e) : processReply content = errorResult e.msg := by
  simp only [processReply, h1, h2]

/-- Every value `processReply` can return is a dict containing the three
fields, with a status among the three literals. -/
theorem processReply_shape (content : String) :
    ∃ kvs, processReply content = Json.obj kvs ∧
      dictContains "status" kvs = true ∧ dictContains "confidence" kvs = true ∧
      dictContains "details" kvs = true ∧
      (dictGet "status" kvs = some (Json.str "sleeping") ∨
       dictGet "status" kvs = some (Json.str "awake") ∨
       dictGet "status" kvs = some (Json.str "error")) := by
  cases hl : loads (stripFences (pyStrip content)) with
  | none =>
    rw [processReply_parse_fail content hl]
    by_cases hsn : strContainsSub (pyLower (stripFences (pyStrip content))) "sleep" = true
    · exact ⟨[("status", Json.str "sleeping"), ("confidence", Json.str "medium"),
        ("details", Json.str "Person appears to be sleeping based on image analysis")],
        by rw [if_pos hsn]; rfl, rfl, rfl, rfl, Or.inl rfl⟩
    · exact ⟨[("status", Json.str "awake"), ("confidence", Json.str "low"),
        ("details", Json.str "Could not parse model response clearly")],
        by rw [if_neg hsn]; rfl, rfl, rfl, rfl, Or.inr (Or.inl rfl)⟩
  | some j =>
    cases hh : handleParsed j with
    | ok r =>
      obtain ⟨kvs2, hr, hc1, hc2, hc3, hst⟩ := handleParsed_ok_shape j r hh
      refine ⟨kvs2, ?_, hc1, hc2, hc3, ?_⟩
      · rw [processReply_parsed_ok content j r hl hh, hr]
      · rcases hst with h | h
        · exact Or.inl h
        · exact Or.inr (Or.inl h)
    | error e =>
      rw [processReply_parsed_err content j e hl hh]
      exact ⟨[("status", Json.str "error"), ("confidence", Json.str "none"),
        ("details", Json.str ("Error during analysis: " ++ e.msg))],
        rfl, rfl, rfl, rfl, Or.inr (Or.inr rfl)⟩

/-- Every value `detect_sleep` can return is a dict containing the three
fields, with a status among the three literals. -/
theorem detectFromOutcome_shape (oc : Except PyErr String) :
    ∃ kvs, detectFromOutcome oc = Json.obj kvs ∧
      dictContains "status" kvs = true ∧ dictContains "confidence" kvs = true ∧
      dictContains "details" kvs = true ∧
      (dictGet "status" kvs = some (Json.str "sleeping") ∨
       dictGet "status" kvs = some (Json.str "awake") ∨
       dictGet "status" kvs = some (Json.str "error")) := by
  cases oc with
  | error e =>
    exact ⟨[("status", Json.str "error"), ("confidence", Json.str "none"),
      ("details", Json.str ("Error during analysis: " ++ e.msg))],
      rfl, rfl, rfl, rfl, Or.inr (Or.inr rfl)⟩
  | ok content => exact processReply_shape content

theorem errorResult_shape (msg : String) :
    ∃ kvs, errorResult msg = Json.obj kvs ∧ dictContains "status" kvs = true ∧
      dictContains "confidence" kvs = true ∧ dictContains "details" kvs = true ∧
      (dictGet "status" kvs = some (Json.str "sleeping") ∨
       dictGet "status" kvs = some (Json.str "awake") ∨
       dictGet "status" kvs = some (Json.str "error")) :=
  ⟨[("status", Json.str "error"), ("confidence", Json.str "none"),
    ("details", Json.str ("Error during analysis: " ++ msg))],
    rfl, rfl, rfl, rfl, Or.inr (Or.inr rfl)⟩

/-! ## Endpoint lemmas -/

/-- The whole behavior of the endpoint on a dict body whose `image` value
is a string: the size check measures the text after the last comma, and on
success the detector receives the original string. -/
theorem detect_obj_str_image (detector : Json → Json) (kvs : List (String × Json))
    (s : String) (himg : dictGet "image" kvs = some (Json.str s)) :
    detect detector (Json.obj kvs) =
      (if (strippedPayload s).toList.length < 100 then .ok (tooSmallBody, 400)
       else .ok (detector (Json.str s), 200)) := by
  have ht : pyTruthy (Json.obj kvs) = true := by
    cases kvs with
    | nil => simp [dictGet] at himg
    | cons p t => simp [pyTruthy]
  have hc : dictContains "image" kvs = true := by simp [dictContains, himg]
  have hgi : getItemStr (Json.obj kvs) "image" = .ok (Json.str s) := by
    simp [getItemStr, himg]
  cases hcm : strContainsSub s "," with
  | true =>
    simp [detect, ht, pyIn, hc, hgi, hcm, pySplitLastComma, pyLenVal,
      strippedPayload, toList_mk]
  | false =>
    simp [detect, ht, pyIn, hc, hgi, hcm, pySplitLastComma, pyLenVal, strippedPayload]

/-- Every 200/400 body the endpoint can produce is one of the two fixed
400 bodies or a detector result. -/
theorem detect_ok_body (detector : Json → Json) (data body : Json) (code : Nat)
    (h : detect detector data = .ok (body, code)) :
    body = noImageBody ∨ body = tooSmallBody ∨ ∃ img, body = detector img := by
  unfold detect at h
  split at h
  · injection h with h1
    injection h1 with h2 h3
    exact Or.inl h2.symm
  · split at h
    · exact Except.noConfusion h
    · split at h
      · injection h with h1
        injection h1 with h2 h3
        exact Or.inl h2.symm
      · split at h
        · exact Except.noConfusion h
        · split at h
          · exact Except.noConfusion h
          · split at h
            · exact Except.noConfusion h
            · split at h
              · exact Except.noConfusion h
              · split at h
                · injection h with h1
                  injection h1 with h2 h3
                  exact Or.inr (Or.inl h2.symm)
                · injection h with h1
                  injection h1 with h2 h3
                  exact Or.inr (Or.inr ⟨_, h2.symm⟩)

/-! ## Claims -/

/-- C1 (amended): every result of `detect_sleep` — and every body the
`/detect` endpoint returns — is a dict containing all three fields, with
`status` drawn from `sleeping`/`awake`/`error`; however, model-supplied
`confidence` and `details` values are passed through unchanged on the
successful-parse path, so those two fields are only guaranteed to lie in
their enumerated sets on the fallback, error and fixed-400 paths (see the
counterexample for the claim as originally stated). -/
theorem C1_amended_result_shape :
    (∀ (model : String → Except PyErr String) (img : String),
      ∃ kvs, detect_sleep model img = Json.obj kvs ∧
        dictContains "status" kvs = true ∧ dictContains "confidence" kvs = true ∧
        dictContains "details" kvs = true ∧
        (dictGet "status" kvs = some (Json.str "sleeping") ∨
         dictGet "status" kvs = some (Json.str "awake") ∨
         dictGet "status" kvs = some (Json.str "error"))) ∧
    (∀ (model : String → Except PyErr String) (data body : Json) (code : Nat),
      fullDetect model data = .ok (body, code) →
      ∃ kvs, body = Json.obj kvs ∧
        dictContains "status" kvs = true ∧ dictContains "confidence" kvs = true ∧
        dictContains "details" kvs = true ∧
        (dictGet "status" kvs = some (Json.str "sleeping") ∨
         dictGet "status" kvs = some (Json.str "awake") ∨
         dictGet "status" kvs = some (Json.str "error"))) := by
  constructor
  · intro model img
    exact detectFromOutcome_shape (model (normalizeImageUrl img))
  · intro model data body code h
    rcases detect_ok_body (detect_sleep_json model) data body code h with hb | hb | ⟨img, hb⟩
    · rw [hb]
      exact ⟨[("status", Json.str "error"), ("confidence", Json.str "none"),
        ("details", Json.str "No image data provided. Send JSON with 'image' key containing base64 data.")],
        rfl, rfl, rfl, rfl, Or.inr (Or.inr rfl)⟩
    · rw [hb]
      exact ⟨[("status", Json.str "error"), ("confidence", Json.str "none"),
        ("details", Json.str "Image data appears too small or invalid.")],
        rfl, rfl, rfl, rfl, Or.inr (Or.inr rfl)⟩
    · rw [hb]
      cases img <;> first
        | exact detectFromOutcome_shape _
        | exact errorResult_shape _

/-- C1 witness: the second conjunct applied to a concrete rejected
request. -/
theorem C1_amended_result_shape_witness :
    ∃ kvs, noImageBody = Json.obj kvs ∧
      dictContains "status" kvs = true ∧ dictContains "confidence" kvs = true ∧
      dictContains "details" kvs = true ∧
      (dictGet "status" kvs = some (Json.str "sleeping") ∨
       dictGet "status" kvs = some (Json.str "awake") ∨
       dictGet "status" kvs = some (Json.str "error")) :=
  C1_amended_result_shape.2 (fun _ => .error ⟨"offline"⟩) Json.null noImageBody 400 rfl

/-- C1 counterexample: a parsed completion carrying `confidence "HIGH"` is
returned with that value, which lies outside the claimed enumeration
`high`/`medium`/`low`/`none`. -/
theorem C1_confidence_enum_counterexample :
    detect_sleep
        (fun _ => .ok "\x7b\"status\": \"awake\", \"confidence\": \"HIGH\", \"details\": \"ok\"\x7d")
        "IMG"
      = Json.obj [("status", Json.str "awake"), ("confidence", Json.str "HIGH"),
          ("details", Json.str "ok")] ∧
    ¬ ("HIGH" = "high" ∨ "HIGH" = "medium" ∨ "HIGH" = "low" ∨ "HIGH" = "none") :=
  ⟨rfl, by decide⟩

/-- C2 (amended): for every reply whose processed text parses as a JSON
object in which the `status` value, if present, is a string: missing
fields are backfilled with `awake`/`low`/`"Analysis completed"`, `status`
is lowercased, trimmed and forced to `awake` outside the two-value set,
and `confidence`/`details` present in the reply are returned unchanged. -/
theorem C2_amended_normalization (content : String) (kvs : List (String × Json))
    (s0 : String)
    (hload : loads (stripFences (pyStrip content)) = some (Json.obj kvs))
    (hs : dictGet "status" kvs = some (Json.str s0) ∨
      (dictGet "status" kvs = none ∧ s0 = "awake")) :
    ∃ kvs2, processReply content = Json.obj kvs2 ∧
      dictGet "status" kvs2 = some (Json.str (specFinalStatus s0)) ∧
      dictGet "confidence" kvs2 =
        (if dictContains "confidence" kvs then dictGet "confidence" kvs
         else some (Json.str "low")) ∧
      dictGet "details" kvs2 =
        (if dictContains "details" kvs then dictGet "details" kvs
         else some (Json.str "Analysis completed")) ∧
      dictContains "status" kvs2 = true ∧ dictContains "confidence" kvs2 = true ∧
      dictContains "details" kvs2 = true := by
  obtain ⟨kvs2, heq, hst, hcf, hdt, hc1, hc2, hc3⟩ := handleParsed_obj_main kvs s0 hs
  exact ⟨kvs2, processReply_parsed_ok content (Json.obj kvs) (Json.obj kvs2) hload heq,
    hst, hcf, hdt, hc1, hc2, hc3⟩

/-- C2 witness: a completion missing `status` and `details` but carrying
`confidence "HIGH"`. -/
theorem C2_amended_normalization_witness :
    ∃ kvs2, processReply "\x7b\"confidence\":\"HIGH\"\x7d" = Json.obj kvs2 ∧
      dictGet "status" kvs2 = some (Json.str (specFinalStatus "awake")) ∧
      dictGet "confidence" kvs2 =
        (if dictContains "confidence" [("confidence", Json.str "HIGH")] then
          dictGet "confidence" [("confidence", Json.str "HIGH")]
         else some (Json.str "low")) ∧
      dictGet "details" kvs2 =
        (if dictContains "details" [("confidence", Json.str "HIGH")] then
          dictGet "details" [("confidence", Json.str "HIGH")]
         else some (Json.str "Analysis completed")) ∧
      dictContains "status" kvs2 = true ∧ dictContains "confidence" kvs2 = true ∧
      dictContains "details" kvs2 = true :=
  C2_amended_normalization "\x7b\"confidence\":\"HIGH\"\x7d"
    [("confidence", Json.str "HIGH")] "awake" rfl (Or.inr ⟨rfl, rfl⟩)

/-- C2 counterexample: the reply parses as a JSON object with a non-string
`status` and `confidence "high"` present, yet the returned result carries
`confidence "none"` (the error result), not the unchanged value the claim
demands for every JSON-object reply. -/
theorem C2_nonstring_status_counterexample :
    loads (stripFences (pyStrip
        "\x7b\"status\": 5, \"confidence\": \"high\", \"details\": \"d\"\x7d"))
      = some (Json.obj [("status", Json.num 5), ("confidence", Json.str "high"),
          ("details", Json.str "d")]) ∧
    processReply "\x7b\"status\": 5, \"confidence\": \"high\", \"details\": \"d\"\x7d"
      = errorResult "'int' object has no attribute 'lower'" ∧
    (∃ kvs, errorResult "'int' object has no attribute 'lower'" = Json.obj kvs ∧
      dictGet "confidence" kvs = some (Json.str "none")) ∧
    ¬ ("none" = "high") :=
  ⟨rfl, rfl,
    ⟨[("status", Json.str "error"), ("confidence", Json.str "none"),
      ("details", Json.str ("Error during analysis: 'int' object has no attribute 'lower'"))],
      rfl, rfl⟩,
    by decide⟩

/-- C3 (amended): for every JSON-object completion whose `status` value is
a string that after lowercasing and trimming is outside
`sleeping`/`awake` (for example `"unknown"`), or whose `status` is
missing, the normalized status in the result is `awake`.  (A value such as
`"SLEEPING "` normalizes *into* the set and therefore yields `sleeping` —
see the counterexample.) -/
theorem C3_amended_status_outside_set (content : String) (kvs : List (String × Json))
    (hload : loads (stripFences (pyStrip content)) = some (Json.obj kvs))
    (hs : (∃ s0, dictGet "status" kvs = some (Json.str s0) ∧
        ¬ (pyStrip (pyLower s0) = "sleeping") ∧ ¬ (pyStrip (pyLower s0) = "awake")) ∨
      dictGet "status" kvs = none) :
    ∃ kvs2, processReply content = Json.obj kvs2 ∧
      dictGet "status" kvs2 = some (Json.str "awake") := by
  rcases hs with ⟨s0, hget, h1, h2⟩ | hnone
  · obtain ⟨kvs2, heq, hst, _⟩ := handleParsed_obj_main kvs s0 (Or.inl hget)
    refine ⟨kvs2,
      processReply_parsed_ok content (Json.obj kvs) (Json.obj kvs2) hload heq, ?_⟩
    rw [hst]
    unfold specFinalStatus
    simp [h1, h2]
  · obtain ⟨kvs2, heq, hst, _⟩ := handleParsed_obj_main kvs "awake" (Or.inr ⟨hnone, rfl⟩)
    exact ⟨kvs2,
      processReply_parsed_ok content (Json.obj kvs) (Json.obj kvs2) hload heq,
      by rw [hst]; rfl⟩

/-- C3 witness: a completion with status `"unknown"`. -/
theorem C3_amended_status_outside_set_witness :
    ∃ kvs2, processReply "\x7b\"status\": \"unknown\"\x7d" = Json.obj kvs2 ∧
      dictGet "status" kvs2 = some (Json.str "awake") :=
  C3_amended_status_outside_set "\x7b\"status\": \"unknown\"\x7d"
    [("status", Json.str "unknown")] rfl
    (Or.inl ⟨"unknown", rfl, by decide, by decide⟩)

/-- C3 counterexample: `"SLEEPING "` lies outside the raw two-value set
(as the claim's own example says), yet the code lowercases and trims it
*before* the membership check, so the result is `sleeping`, not the
`awake` the claim demands. -/
theorem C3_sleeping_uppercase_counterexample :
    loads (stripFences (pyStrip "\x7b\"status\": \"SLEEPING \"\x7d"))
      = some (Json.obj [("status", Json.str "SLEEPING ")]) ∧
    ¬ ("SLEEPING " = "sleeping" ∨ "SLEEPING " = "awake") ∧
    processReply "\x7b\"status\": \"SLEEPING \"\x7d"
      = Json.obj [("status", Json.str "sleeping"), ("confidence", Json.str "low"),
          ("details", Json.str "Analysis completed")] ∧
    ¬ ("sleeping" = "awake") :=
  ⟨rfl, by decide, rfl, by decide⟩

/-- C4: the code-fence scenario — the fence lines of the concrete fenced
completion are discarded, the remainder parses, status is lowercased and
confidence is passed through without case normalization. -/
theorem C4_code_fence_scenario :
    detect_sleep
        (fun _ => .ok "```json\n\x7b\"status\":\"Sleeping\",\"confidence\":\"HIGH\",\"details\":\"eyes closed\"\x7d\n```")
        "BASE64IMAGEDATA"
      = Json.obj [("status", Json.str "sleeping"), ("confidence", Json.str "HIGH"),
          ("details", Json.str "eyes closed")] := rfl

/-- C5 (amended): on `json.loads` failure the keyword sniffing applies to
the *fence-stripped* reply text (the claim said the raw reply text — see
the counterexample): if that text contains `"sleep"` case-insensitively
the fixed sleeping fallback is returned, otherwise the fixed awake
fallback. -/
theorem C5_amended_parse_failure_sniffing (content : String)
    (h : loads (stripFences (pyStrip content)) = none) :
    processReply content =
      (if strContainsSub (pyLower (stripFences (pyStrip content))) "sleep"
       then sleepingFallback else awakeFallback) :=
  processReply_parse_fail content h

/-- C5 witness: an unparseable reply containing "sleep" (inside "asleep")
yields the sleeping fallback. -/
theorem C5_amended_parse_failure_sniffing_witness :
    processReply "the person is asleep" =
      (if strContainsSub (pyLower (stripFences (pyStrip "the person is asleep"))) "sleep"
       then sleepingFallback else awakeFallback) :=
  C5_amended_parse_failure_sniffing "the person is asleep" rfl

/-- C5 counterexample: the raw reply `"```sleep\nnot json\n```"` contains
"sleep" and fails JSON parsing, so the claim demands the sleeping
fallback; but the line carrying "sleep" is a fence line and is discarded
before sniffing, so the code returns the awake fallback. -/
theorem C5_raw_reply_counterexample :
    strContainsSub (pyLower "```sleep\nnot json\n```") "sleep" = true ∧
    loads (stripFences (pyStrip "```sleep\nnot json\n```")) = none ∧
    processReply "```sleep\nnot json\n```" = awakeFallback ∧
    (∃ kvs, awakeFallback = Json.obj kvs ∧
      dictGet "status" kvs = some (Json.str "awake")) ∧
    ¬ ("awake" = "sleeping") :=
  ⟨rfl, rfl, rfl,
    ⟨[("status", Json.str "awake"), ("confidence", Json.str "low"),
      ("details", Json.str "Could not parse model response clearly")], rfl, rfl⟩,
    by decide⟩

/-- C6: `detect_sleep` returns a `status "error"` result exactly when the
model call raised, or the parsed reply provoked an exception in the
normalization code — never on a JSON parse failure; in that case the
result is exactly the fixed error dict carrying the failure message; and a
well-formed completion *claiming* `status "error"` is forced to `awake`,
not passed through. -/
theorem C6_error_status_iff_failure (oc : Except PyErr String) :
    ((∃ kvs, detectFromOutcome oc = Json.obj kvs ∧
        dictGet "status" kvs = some (Json.str "error")) ↔
      ((∃ e, oc = .error e) ∨
       (∃ content j e, oc = .ok content ∧
         loads (stripFences (pyStrip content)) = some j ∧
         handleParsed j = .error e))) ∧
    (∀ e, oc = .error e → detectFromOutcome oc = errorResult e.msg) ∧
    (∀ content j e, oc = .ok content →
      loads (stripFences (pyStrip content)) = some j → handleParsed j = .error e →
      detectFromOutcome oc = errorResult e.msg) ∧
    (∀ content kvs, oc = .ok content →
      loads (stripFences (pyStrip content)) = some (Json.obj kvs) →
      dictGet "status" kvs = some (Json.str "error") →
      ∃ kvs2, detectFromOutcome oc = Json.obj kvs2 ∧
        dictGet "status" kvs2 = some (Json.str "awake")) := by
  refine ⟨⟨?_, ?_⟩, ?_, ?_, ?_⟩
  · rintro ⟨kvs, hk, hst⟩
    cases oc with
    | error e => exact Or.inl ⟨e, rfl⟩
    | ok content =>
      have hk2 : processReply content = Json.obj kvs := hk
      cases hl : loads (stripFences (pyStrip content)) with
      | none =>
        rw [processReply_parse_fail content hl] at hk2
        by_cases hsn :
            strContainsSub (pyLower (stripFences (pyStrip content))) "sleep" = true
        · rw [if_pos hsn] at hk2
          have h2 : [("status", Json.str "sleeping"), ("confidence", Json.str "medium"),
              ("details", Json.str "Person appears to be sleeping based on image analysis")]
              = kvs := by injection hk2
          subst h2
          have hst2 : some (Json.str "sleeping") = some (Json.str "error") := hst
          injection hst2 with h3
          injection h3 with h4
          exact absurd h4 (by decide)
        · rw [if_neg hsn] at hk2
          have h2 : [("status", Json.str "awake"), ("confidence", Json.str "low"),
              ("details", Json.str "Could not parse model response clearly")]
              = kvs := by injection hk2
          subst h2
          have hst2 : some (Json.str "awake") = some (Json.str "error") := hst
          injection hst2 with h3
          injection h3 with h4
          exact absurd h4 (by decide)
      | some j =>
        cases hh : handleParsed j with
        | error e => exact Or.inr ⟨content, j, e, rfl, hl, hh⟩
        | ok r =>
          rw [processReply_parsed_ok content j r hl hh] at hk2
          obtain ⟨kvs2, hr, _, _, _, hstsh⟩ := handleParsed_ok_shape j r hh
          rw [hr] at hk2
          have h2 : kvs2 = kvs := by injection hk2
          subst h2
          rcases hstsh with hx | hx <;> rw [hx] at hst <;> injection hst with h3 <;>
            injection h3 with h4 <;> exact absurd h4 (by decide)
  · rintro (⟨e, rfl⟩ | ⟨c, j, e, rfl, hl, hh⟩)
    · exact ⟨[("status", Json.str "error"), ("confidence", Json.str "none"),
        ("details", Json.str ("Error during analysis: " ++ e.msg))], rfl, rfl⟩
    · exact ⟨[("status", Json.str "error"), ("confidence", Json.str "none"),
        ("details", Json.str ("Error during analysis: " ++ e.msg))],
        processReply_parsed_err c j e hl hh, rfl⟩
  · intro e he
    subst he
    rfl
  · intro c j e hoc hl hh
    subst hoc
    exact processReply_parsed_err c j e hl hh
  · intro c kvs hoc hl hget
    subst hoc
    obtain ⟨kvs2, heq, hst, _⟩ := handleParsed_obj_main kvs "error" (Or.inl hget)
    refine ⟨kvs2,
      processReply_parsed_ok c (Json.obj kvs) (Json.obj kvs2) hl heq, ?_⟩
    rw [hst]
    rfl

/-- C6 witness: a failing model call yields exactly the fixed error
dict. -/
theorem C6_error_status_iff_failure_witness :
    detectFromOutcome (.error ⟨"boom"⟩) = errorResult "boom" :=
  (C6_error_status_iff_failure (.error ⟨"boom"⟩)).2.1 ⟨"boom"⟩ rfl

/-- C7: a request whose image payload, after stripping the text up to the
last comma, is shorter than 100 characters is answered with the fixed
"too small" body and HTTP 400, and the detector is never invoked (the
response is independent of the detector). -/
theorem C7_too_small_rejected (det det2 : Json → Json) (kvs : List (String × Json))
    (s : String) (himg : dictGet "image" kvs = some (Json.str s))
    (hlen : (strippedPayload s).toList.length < 100) :
    detect det (Json.obj kvs) = .ok (tooSmallBody, 400) ∧
    detect det (Json.obj kvs) = detect det2 (Json.obj kvs) := by
  have h1 := detect_obj_str_image det kvs s himg
  have h2 := detect_obj_str_image det2 kvs s himg
  rw [if_pos hlen] at h1 h2
  exact ⟨h1, h1.trans h2.symm⟩

/-- C7 witness: a five-character payload is rejected identically under two
different detectors. -/
theorem C7_too_small_rejected_witness :
    detect (fun _ => Json.null) (Json.obj [("image", Json.str "short")])
      = .ok (tooSmallBody, 400) ∧
    detect (fun _ => Json.null) (Json.obj [("image", Json.str "short")])
      = detect (fun _ => awakeFallback) (Json.obj [("image", Json.str "short")]) :=
  C7_too_small_rejected (fun _ => Json.null) (fun _ => awakeFallback)
    [("image", Json.str "short")] "short" rfl (by decide)

/-- C8: a request passing both validation checks is forwarded — with the
original, unstripped image string — to the detector, and the detector's
result is returned unchanged with HTTP 200, whatever it is (including
`detect_sleep` error results). -/
theorem C8_passthrough_200 (model : String → Except PyErr String)
    (det : Json → Json) (kvs : List (String × Json)) (s : String)
    (himg : dictGet "image" kvs = some (Json.str s))
    (hlen : ¬ ((strippedPayload s).toList.length < 100)) :
    detect det (Json.obj kvs) = .ok (det (Json.str s), 200) ∧
    fullDetect model (Json.obj kvs) = .ok (detect_sleep model s, 200) := by
  have h1 := detect_obj_str_image det kvs s himg
  rw [if_neg hlen] at h1
  have h2 := detect_obj_str_image (detect_sleep_json model) kvs s himg
  rw [if_neg hlen] at h2
  exact ⟨h1, h2⟩

/-- C8 witness: a 120-character payload is forwarded and the (failing)
detector's error-as-data result is returned with 200. -/
theorem C8_passthrough_200_witness :
    detect (fun _ => Json.null)
        (Json.obj [("image", Json.str (String.mk (List.replicate 120 'A')))])
      = .ok (Json.null, 200) ∧
    fullDetect (fun _ => .error ⟨"offline"⟩)
        (Json.obj [("image", Json.str (String.mk (List.replicate 120 'A')))])
      = .ok (detect_sleep (fun _ => .error ⟨"offline"⟩)
          (String.mk (List.replicate 120 'A')), 200) :=
  C8_passthrough_200 (fun _ => .error ⟨"offline"⟩) (fun _ => Json.null)
    [("image", Json.str (String.mk (List.replicate 120 'A')))]
    (String.mk (List.replicate 120 'A')) rfl (by decide)

/-- C9: image normalization is a no-op on strings already starting with
the `"data:"` scheme marker and prepends `"data:image/jpeg;base64,"`
otherwise, and the URL `detect_sleep` dispatches to the model is exactly
the normalized string. -/
theorem C9_normalize_idempotent (base64_image : String)
    (model : String → Except PyErr String) :
    (pyStartsWith base64_image "data:" = true →
      normalizeImageUrl base64_image = base64_image) ∧
    (pyStartsWith base64_image "data:" = false →
      normalizeImageUrl base64_image = "data:image/jpeg;base64," ++ base64_image) ∧
    detect_sleep model base64_image
      = detectFromOutcome (model (normalizeImageUrl base64_image)) := by
  refine ⟨fun h => ?_, fun h => ?_, rfl⟩
  · simp [normalizeImageUrl, h]
  · simp [normalizeImageUrl, h]

/-- C9 witness: a prefixed string is passed unmodified; an unprefixed one
is prefixed. -/
theorem C9_normalize_idempotent_witness :
    normalizeImageUrl "data:image/png;base64,AAAA" = "data:image/png;base64,AAAA" ∧
    normalizeImageUrl "AAAA" = "data:image/jpeg;base64," ++ "AAAA" :=
  ⟨(C9_normalize_idempotent "data:image/png;base64,AAAA" (fun _ => .error ⟨"x"⟩)).1 rfl,
   (C9_normalize_idempotent "AAAA" (fun _ => .error ⟨"x"⟩)).2.1 rfl⟩

/-- C10 (amended): a reply parsing as valid JSON that is either not an
object at all, or an object whose `status` value is present and not a
string, provokes a type error that the broad handler converts into the
fixed error result — no exception escapes and no keyword sniffing runs.
(An object merely *missing* `status` is backfilled and does not error —
see the counterexample to the claim as stated.) -/
theorem C10_amended_type_error_path (content : String) (j : Json)
    (hload : loads (stripFences (pyStrip content)) = some j)
    (hshape : (∀ kvs, j ≠ Json.obj kvs) ∨
      (∃ kvs v, j = Json.obj kvs ∧ dictGet "status" kvs = some v ∧
        ∀ s, v ≠ Json.str s)) :
    ∃ e, handleParsed j = .error e ∧ processReply content = errorResult e.msg ∧
      (∃ kvs2, errorResult e.msg = Json.obj kvs2 ∧
        dictGet "status" kvs2 = some (Json.str "error") ∧
        dictGet "confidence" kvs2 = some (Json.str "none")) := by
  have herr : ∃ e, handleParsed j = .error e := by
    rcases hshape with h | ⟨kvs, v, rfl, hget, hv⟩
    · exact handleParsed_nonobj_error j h
    · exact handleParsed_bad_status kvs v hget hv
  obtain ⟨e, he⟩ := herr
  exact ⟨e, he, processReply_parsed_err content j e hload he,
    ⟨[("status", Json.str "error"), ("confidence", Json.str "none"),
      ("details", Json.str ("Error during analysis: " ++ e.msg))], rfl, rfl, rfl⟩⟩

/-- C10 witness: the bare-number reply `"5"` takes the error path. -/
theorem C10_amended_type_error_path_witness :
    ∃ e, handleParsed (Json.num 5) = .error e ∧
      processReply "5" = errorResult e.msg ∧
      (∃ kvs2, errorResult e.msg = Json.obj kvs2 ∧
        dictGet "status" kvs2 = some (Json.str "error") ∧
        dictGet "confidence" kvs2 = some (Json.str "none")) :=
  C10_amended_type_error_path "5" (Json.num 5) rfl
    (Or.inl fun _ h => Json.noConfusion h)

/-- C10 counterexample: the reply `"{}"` parses as valid JSON and is not
an object with a string status value, yet the code returns the backfilled
awake result, not an error result as the claim states. -/
theorem C10_empty_object_counterexample :
    loads (stripFences (pyStrip "\x7b\x7d")) = some (Json.obj []) ∧
    dictGet "status" ([] : List (String × Json)) = none ∧
    processReply "\x7b\x7d" = Json.obj [("status", Json.str "awake"),
      ("confidence", Json.str "low"), ("details", Json.str "Analysis completed")] ∧
    dictGet "status" [("status", Json.str "awake"), ("confidence", Json.str "low"),
      ("details", Json.str "Analysis completed")] = some (Json.str "awake") ∧
    ¬ ("awake" = "error") :=
  ⟨rfl, rfl, rfl, rfl, by decide⟩
